import Mathlib

/-!
Shallow embedding of the collab-orchestrator core
(`collab_orchestrator/team_handler/team_handler.py`,
`collab_orchestrator/team_handler/task_executor.py`,
`collab_orchestrator/agents/agent_gateway.py`) and proofs about the
TeamHandler round loop, the TaskExecutor single-task execution, and the
AgentGateway unary retry loop.

Asynchronous generators are embedded as pure functions that return the
list of items they yield; a generator that raises an uncaught exception
is embedded as returning the items yielded so far together with the
exception text.  Real-time behaviour (the 30-second heartbeat tasks) is
embedded under an idealized discrete-time scheduler: each remote call is
parameterized by its duration in seconds, and a keepalive enqueued at a
30-second tick strictly before the call completes is forwarded to the
output stream, exactly as the queue/wait_for loop in the source does.
-/

namespace CollabOrchestrator

/-! ### Payload types (modelled from the spec's Event data model, §3, and
from field accesses in the source; `co_types` is not part of the sources
provided). -/

/-- Modelled from the spec: `TokenUsage` as constructed in
`team_handler.py` lines 244-248. -/
structure TokenUsage where
  completion_tokens : Nat
  prompt_tokens : Nat
  total_tokens : Nat
deriving Repr, DecidableEq

/-- Modelled from the spec: `ErrorResponse` with the fields the source
constructs (`session_id, source, request_id, status_code, detail`). -/
structure ErrorResponse where
  session_id : String
  source : String
  request_id : String
  status_code : Nat
  detail : String
deriving Repr, DecidableEq

/-- Modelled from the spec: `AbortResult` with the fields the source
constructs (`session_id, source, request_id, abort_reason`). -/
structure AbortResult where
  session_id : String
  source : String
  request_id : String
  abort_reason : String
deriving Repr, DecidableEq

/-- Modelled from the spec: `InvokeResponse` with the fields the source
constructs (`session_id, source, request_id, token_usage, output_raw`). -/
structure InvokeResponse where
  session_id : String
  source : String
  request_id : String
  token_usage : TokenUsage
  output_raw : String
deriving Repr, DecidableEq

/-- Modelled from the spec: `AgentRequestEvent` with the fields the source
constructs in `task_executor.py` lines 52-62. -/
structure AgentRequestEvent where
  session_id : String
  source : String
  request_id : String
  task_id : String
  agent_name : String
  task_goal : String
deriving Repr, DecidableEq

/-! ### Manager actions (modelled from the spec's Action union, §3, plus
the `action_detail` field accesses in `team_handler.py`:
`result_task_id` for PROVIDE_RESULT, `task_id/instructions/agent_name`
for ASSIGN_NEW_TASK, `abort_reason` for ABORT; `manager_agent.py` is not
part of the sources provided). -/

/-- ASSIGN_NEW_TASK detail, fields as accessed at
`team_handler.py` lines 267-270. -/
structure AssignDetail where
  task_id : String
  instructions : String
  agent_name : String
deriving Repr, DecidableEq

/-- PROVIDE_RESULT detail.  The spec gives `content` and `reasoning`;
`team_handler.py` line 250 additionally accesses `result_task_id`. -/
structure ResultDetail where
  content : String
  reasoning : String
  result_task_id : String
deriving Repr, DecidableEq

/-- ABORT detail, field as accessed at `team_handler.py` line 262. -/
structure AbortDetail where
  abort_reason : String
deriving Repr, DecidableEq

/-- The manager's next action with its detail.  The `unknown` constructor
models a discriminator value outside the three known ones, which the
source handles in its `case _` branch (`team_handler.py` line 277). -/
inductive ManagerAction where
  | assignNewTask (d : AssignDetail)
  | provideResult (d : ResultDetail)
  | abortAction (d : AbortDetail)
  | unknown (tag : String)
deriving Repr, DecidableEq

/-- Modelled from the spec: `ManagerOutput` carries the decoded action
(the handler also stamps `session_id/source/request_id` onto it before
yielding it, which does not change the action). -/
structure ManagerOutput where
  next_action : ManagerAction
deriving Repr, DecidableEq

/-! ### Event stream items.

`new_event_response(type, payload)` renders an SSE line; we keep the
`(type, payload)` pair.  Raw keepalive strings are yielded directly by
the source, so they are a separate stream-item constructor. -/

/-- Event types used by the source (`EventType.*` in `team_handler.py`
and `task_executor.py`) together with `TEAM_EXECUTION_END`, which the
spec's event vocabulary lists (§3/§4.4) and which is needed to state
claims about its emission. -/
inductive EventType where
  | AGENT_REQUEST
  | MANAGER_RESPONSE
  | FINAL_RESPONSE
  | ERROR
  | TEAM_EXECUTION_END
deriving Repr, DecidableEq

/-- The payload passed to `new_event_response`. -/
inductive Payload where
  | errorResponse (e : ErrorResponse)
  | abortResult (a : AbortResult)
  | invokeResponse (r : InvokeResponse)
  | agentRequest (a : AgentRequestEvent)
  | managerResponse (m : ManagerOutput)
deriving Repr, DecidableEq

/-- One item yielded by an orchestrator async generator: either a raw
keepalive string or a `(type, payload)` event. -/
inductive StreamItem where
  | keepalive (s : String)
  | event (t : EventType) (p : Payload)
deriving Repr, DecidableEq

/-! ### Conversation (modelled from the spec §3 and from the call sites:
`Conversation(messages=[])`, `add_item(task_id, agent_name,
instructions, task_result)`, `get_message_by_task_id(id).result`;
`conversation.py` is not part of the sources provided). -/

/-- One recorded conversation message, fields as passed to `add_item` at
`task_executor.py` line 168 and read back via `.result` at
`team_handler.py` line 251. -/
structure ConvMessage where
  task_id : String
  agent_name : String
  instructions : String
  result : String
deriving Repr, DecidableEq

/-- Modelled from the spec: an append-only in-memory log of task
assignments and results. -/
structure Conversation where
  messages : List ConvMessage
deriving Repr, DecidableEq

/-- Modelled from the spec: append one item to the log. -/
def Conversation.add_item (c : Conversation) (task_id agent_name instructions result : String) :
    Conversation :=
  ⟨c.messages ++ [⟨task_id, agent_name, instructions, result⟩]⟩

/-- Modelled from the spec: look up the recorded message for a task id
(first match in insertion order, `None` when absent). -/
def Conversation.get_message_by_task_id (c : Conversation) (task_id : String) :
    Option ConvMessage :=
  c.messages.find? (fun m => m.task_id == task_id)

/-! ### Task agents and the TaskExecutor registry
(`task_executor.py` lines 23-28). -/

/-- Modelled from the spec: the base agent record carries a name and a
version (`agent.agent.name`, `agent.agent.version`). -/
structure BaseAgentInfo where
  name : String
  version : String
deriving Repr, DecidableEq

/-- Modelled from the spec: a TaskAgent wraps its base agent record. -/
structure TaskAgent where
  agent : BaseAgentInfo
deriving Repr, DecidableEq

/-- Python truthiness of a `TaskAgent` instance: a plain object defines
neither `__bool__` nor `__len__`, so `not task_agent` is always False. -/
def TaskAgent.isTruthy (_ : TaskAgent) : Bool := true

/-- The registration key `f"{agent.agent.name}:{agent.agent.version}"`
(`task_executor.py` line 27). -/
def TaskAgent.registryKey (a : TaskAgent) : String :=
  a.agent.name ++ ":" ++ a.agent.version

/-- One Python dict assignment `d[k] = v`: overwrite an existing binding
for `k`, else append a new one (dicts preserve insertion order). -/
def dictInsert (d : List (String × TaskAgent)) (k : String) (v : TaskAgent) :
    List (String × TaskAgent) :=
  if d.any (fun p => p.1 == k) then
    d.map (fun p => if p.1 == k then (k, v) else p)
  else
    d ++ [(k, v)]

/-- Python dict lookup `d[k]` as an option (`none` models the KeyError). -/
def dictGet? (d : List (String × TaskAgent)) (k : String) : Option TaskAgent :=
  (d.find? (fun p => p.1 == k)).map (fun p => p.2)

/-- `TaskExecutor.__init__`: build `self.agents` by inserting each agent
under its `name:version` key (`task_executor.py` lines 24-28). -/
def TaskExecutor.buildAgents (agents : List TaskAgent) : List (String × TaskAgent) :=
  agents.foldl (fun d a => dictInsert d a.registryKey a) []

/-! ### Heartbeat timing under the idealized discrete-time scheduler.

The keepalive coroutine enqueues one message every 30 seconds while the
main call is outstanding; the consuming loop forwards queued messages
while the main task is not yet done.  A keepalive enqueued at second
`t = 30·k` (k ≥ 1) strictly before the call completes at
`durationSeconds` is therefore forwarded. -/

/-- Number of keepalive messages forwarded for a remote call that
completes after `durationSeconds` seconds: the 30-second ticks strictly
inside `(0, durationSeconds)`. -/
def keepaliveCount (durationSeconds : Nat) : Nat :=
  (List.range durationSeconds).countP (fun t => 0 < t && t % 30 == 0)

/-- The keepalive line yielded by `TaskExecutor.execute_task_sse`. -/
def taskKeepaliveLine : String := "event: keepalive\ndata: connection alive\n\n"

/-- The keepalive line yielded around the manager call in
`TeamHandler.invoke`. -/
def managerKeepaliveLine : String := "event: keepalive\ndata: manager call in progress\n\n"

/-! ### TaskExecutor.execute_task_sse (`task_executor.py` lines 30-168).

The remote `task_agent.perform_task` call (including the
`InvokeResponse.model_validate` decode) is abstracted as
`callOutcome : Except String InvokeResponse` — either the decoded
response or the text of the raised exception — plus the call's
duration for the heartbeat.  The generator's own uncaught exceptions
(the `KeyError` at the dict lookup, the dead `ValueError` guard) are the
`Except.error` of the result; `Except.ok` carries the yielded items and
the updated conversation. -/

def TaskExecutor.execute_task_sse
    (agents : List (String × TaskAgent))
    (task_id instructions agent_name : String)
    (conversation : Conversation)
    (session_id source request_id : String)
    (durationSeconds : Nat)
    (callOutcome : Except String InvokeResponse) :
    Except String (List StreamItem × Conversation) :=
  match dictGet? agents agent_name with
  | none => .error ("KeyError: " ++ agent_name)
  | some task_agent =>
    if !task_agent.isTruthy then
      .error ("ValueError: Task agent " ++ agent_name ++ " not found.")
    else
      let reqEvent : StreamItem :=
        .event .AGENT_REQUEST (.agentRequest
          ⟨session_id, source, request_id, task_id, agent_name, instructions⟩)
      let kas : List StreamItem :=
        List.replicate (keepaliveCount durationSeconds) (.keepalive taskKeepaliveLine)
      match callOutcome with
      | .ok i_response =>
        .ok (reqEvent :: kas ++
              [.event .FINAL_RESPONSE (.invokeResponse i_response)],
             conversation.add_item task_id agent_name instructions i_response.output_raw)
      | .error e =>
        .ok (reqEvent :: kas ++
              [.event .ERROR (.errorResponse
                ⟨session_id, source, request_id, 500,
                 "Unexpected error occurred: " ++ e⟩)],
             conversation.add_item task_id agent_name instructions "")

/-! ### TeamHandler._execute_task (`team_handler.py` lines 53-89).

Iterating `execute_task_sse` inside `try`: every item it yields is
forwarded; an exception it raises is caught and converted to one
`EventType.ERROR` / `ErrorResponse(500, str(e))` item, leaving the
conversation untouched. -/

def TeamHandler.execute_task
    (agents : List (String × TaskAgent))
    (task_id instructions agent_name : String)
    (conversation : Conversation)
    (session_id source request_id : String)
    (durationSeconds : Nat)
    (callOutcome : Except String InvokeResponse) :
    List StreamItem × Conversation :=
  match TaskExecutor.execute_task_sse agents task_id instructions agent_name conversation
      session_id source request_id durationSeconds callOutcome with
  | .ok (items, conv) => (items, conv)
  | .error e =>
    ([.event .ERROR (.errorResponse ⟨session_id, source, request_id, 500, e⟩)],
     conversation)

/-! ### TeamHandler.invoke (`team_handler.py` lines 103-301).

The handler's per-request state: the stamped event ids, the round
budget, and the TaskExecutor registry. -/

structure TeamEnv where
  session_id : String
  source : String
  request_id : String
  max_rounds : Nat
  agents : List (String × TaskAgent)
deriving Repr

/-- The environment's behaviour at round `r`: what the manager call
returns (or raises), and — when the round assigns a task — the duration
and outcome of that task's remote call. -/
structure RoundBehavior where
  manager : Nat → Except String ManagerOutput
  managerDuration : Nat → Nat
  taskDuration : Nat → Nat
  taskOutcome : Nat → Except String InvokeResponse

/-- The `while True` round loop of `TeamHandler.invoke`, entered at
`round_no` with the current conversation.  Returns the yielded stream
items together with `some exc` when the generator itself raises an
uncaught exception (the `.result` access on a missing conversation
message at line 251), `none` when it returns normally. -/
def TeamHandler.invokeLoop (env : TeamEnv) (b : RoundBehavior)
    (round_no : Nat) (conversation : Conversation) :
    List StreamItem × Option String :=
  let kas : List StreamItem :=
    List.replicate (keepaliveCount (b.managerDuration round_no))
      (.keepalive managerKeepaliveLine)
  match b.manager round_no with
  | .error e =>
    (kas ++ [.event .ERROR (.errorResponse
        ⟨env.session_id, env.source, env.request_id, 500, e⟩)], none)
  | .ok mo =>
    let pre : List StreamItem :=
      kas ++ [.event .MANAGER_RESPONSE (.managerResponse mo)]
    match mo.next_action with
    | .provideResult d =>
      match conversation.get_message_by_task_id d.result_task_id with
      | some msg =>
        (pre ++ [.event .FINAL_RESPONSE (.invokeResponse
            ⟨env.session_id, env.source, env.request_id, ⟨0, 0, 0⟩, msg.result⟩)],
         none)
      | none =>
        (pre, some "AttributeError: NoneType object has no attribute result")
    | .abortAction d =>
      (pre ++ [.event .ERROR (.abortResult
          ⟨env.session_id, env.source, env.request_id, d.abort_reason⟩)], none)
    | .unknown tag =>
      (pre ++ [.event .ERROR (.errorResponse
          ⟨env.session_id, env.source, env.request_id, 400,
           "Unknown action: " ++ tag⟩)], none)
    | .assignNewTask d =>
      let step := TeamHandler.execute_task env.agents d.task_id d.instructions
        d.agent_name conversation env.session_id env.source env.request_id
        (b.taskDuration round_no) (b.taskOutcome round_no)
      if h : env.max_rounds ≤ round_no + 1 then
        (pre ++ step.1 ++ [.event .ERROR (.abortResult
            ⟨env.session_id, env.source, env.request_id,
             "Max rounds surpassed: " ++ toString env.max_rounds⟩)], none)
      else
        let rest := TeamHandler.invokeLoop env b (round_no + 1) step.2
        (pre ++ step.1 ++ rest.1, rest.2)
termination_by env.max_rounds - round_no
decreasing_by simp only [not_le] at h; omega

/-- `TeamHandler.invoke`: the loop starts at round 0 with an empty
conversation (`team_handler.py` lines 121-123). -/
def TeamHandler.invoke (env : TeamEnv) (b : RoundBehavior) :
    List StreamItem × Option String :=
  TeamHandler.invokeLoop env b 0 ⟨[]⟩

/-! ### Stream observations used by the statements. -/

/-- The event type of a stream item (`none` for keepalive lines). -/
def StreamItem.eventType? : StreamItem → Option EventType
  | .keepalive _ => none
  | .event t _ => some t

/-- Is this item a keepalive line? -/
def StreamItem.isKeepalive : StreamItem → Bool
  | .keepalive _ => true
  | .event _ _ => false

/-- Is this item an `ErrorResponse` payload? -/
def StreamItem.isErrorResponse : StreamItem → Bool
  | .event _ (.errorResponse _) => true
  | _ => false

/-- Is this item an `AbortResult` payload? -/
def StreamItem.isAbortResult : StreamItem → Bool
  | .event _ (.abortResult _) => true
  | _ => false

/-- Is this item a MANAGER_RESPONSE event whose action is
ASSIGN_NEW_TASK?  Counting these counts the ASSIGN rounds of a run. -/
def StreamItem.isAssignResponse : StreamItem → Bool
  | .event .MANAGER_RESPONSE (.managerResponse mo) =>
    match mo.next_action with
    | .assignNewTask _ => true
    | _ => false
  | _ => false

/-- Is this item a terminal task event of `execute_task_sse` (a final
InvokeResponse or an ErrorResponse)? -/
def StreamItem.isTerminalTaskEvent : StreamItem → Bool
  | .event .FINAL_RESPONSE (.invokeResponse _) => true
  | .event .ERROR (.errorResponse _) => true
  | _ => false

/-! ### AgentGateway.invoke_agent (`agent_gateway.py` lines 32-81).

Each attempt (the POST plus `raise_for_status` plus `.json()`) either
returns a response or raises; raised exceptions are split into
`httpx.TimeoutException` and everything else, because the source treats
them differently (a 1-second sleep before retrying only on timeout). -/

/-- An exception observed during one attempt. -/
inductive AttemptExc where
  | timeoutExc (msg : String)
  | otherExc (msg : String)
deriving Repr, DecidableEq

/-- What `raise last_exception or TimeoutError("Max retries exceeded")`
raises: the last observed attempt exception, or — only if no attempt was
ever made — the generic fallback. -/
inductive RaisedExc where
  | fromAttempt (e : AttemptExc)
  | genericMaxRetries
deriving Repr, DecidableEq

/-- The observable outcome of one `invoke_agent` run: the returned
response or the raised exception, the number of attempts performed, and
the number of 1-second inter-attempt sleeps. -/
structure InvokeTrace where
  result : Except RaisedExc String
  attemptsMade : Nat
  sleeps : Nat
deriving Repr

/-- The constant `max_retries = 3` (`agent_gateway.py` line 44). -/
def AgentGateway.max_retries : Nat := 3

/-- `raise last_exception or TimeoutError("Max retries exceeded")`
(`agent_gateway.py` line 81): Python's `or` picks the left operand when
it is truthy (a non-None exception object), else the fallback. -/
def AgentGateway.raiseLastOrGeneric (last_exception : Option AttemptExc) :
    Except RaisedExc String :=
  match last_exception with
  | some e => .error (.fromAttempt e)
  | none => .error .genericMaxRetries

/-- The `while attempt < max_retries` loop of `invoke_agent`, entered
with the current `attempt` counter and `last_exception`; `attempts i` is
the behaviour of the i-th attempt. -/
def AgentGateway.invokeAgentLoop (attempts : Nat → Except AttemptExc String)
    (attempt : Nat) (last_exception : Option AttemptExc)
    (made sleeps : Nat) : InvokeTrace :=
  if attempt < AgentGateway.max_retries then
    match attempts attempt with
    | .ok resp => ⟨.ok resp, made + 1, sleeps⟩
    | .error (.timeoutExc m) =>
      AgentGateway.invokeAgentLoop attempts (attempt + 1)
        (some (.timeoutExc m)) (made + 1) (sleeps + 1)
    | .error (.otherExc m) =>
      AgentGateway.invokeAgentLoop attempts (attempt + 1)
        (some (.otherExc m)) (made + 1) sleeps
  else
    ⟨AgentGateway.raiseLastOrGeneric last_exception, made, sleeps⟩
termination_by AgentGateway.max_retries - attempt
decreasing_by all_goals omega

/-- `AgentGateway.invoke_agent`: the loop starts with `attempt = 0` and
`last_exception = None` (`agent_gateway.py` lines 44-46). -/
def AgentGateway.invoke_agent (attempts : Nat → Except AttemptExc String) : InvokeTrace :=
  AgentGateway.invokeAgentLoop attempts 0 none 0 0

/-- Number of timeout exceptions in a list of observed attempt
exceptions; each one causes exactly one `asyncio.sleep(1)` before the
retry (`agent_gateway.py` line 68). -/
def timeoutCount (l : List AttemptExc) : Nat :=
  l.countP fun e => match e with
    | .timeoutExc _ => true
    | .otherExc _ => false

/-! ## Theorems -/

/-- **C5.** AgentGateway's unary `invoke_agent` (retry bound
`max_retries = 3`): given N-1 attempts that raise followed by a success
(N ≤ 3), it returns the successful response after exactly N attempts;
given 3 consecutive failing attempts it performs exactly 3 attempts and
raises the last observed underlying exception (not a generic wrapper);
a 1-second inter-attempt delay happens exactly once per timeout
exception and never after another exception.  The four conjuncts
enumerate N = 1, 2, 3 and the exhausted case. -/
theorem C5_invoke_agent_retry_contract :
    (∀ attempts resp, attempts 0 = .ok resp →
      AgentGateway.invoke_agent attempts = ⟨.ok resp, 1, 0⟩) ∧
    (∀ attempts e0 resp, attempts 0 = .error e0 → attempts 1 = .ok resp →
      AgentGateway.invoke_agent attempts = ⟨.ok resp, 2, timeoutCount [e0]⟩) ∧
    (∀ attempts e0 e1 resp, attempts 0 = .error e0 → attempts 1 = .error e1 →
      attempts 2 = .ok resp →
      AgentGateway.invoke_agent attempts = ⟨.ok resp, 3, timeoutCount [e0, e1]⟩) ∧
    (∀ attempts e0 e1 e2, attempts 0 = .error e0 → attempts 1 = .error e1 →
      attempts 2 = .error e2 →
      AgentGateway.invoke_agent attempts =
        ⟨.error (.fromAttempt e2), 3, timeoutCount [e0, e1, e2]⟩) := by
  refine ⟨?_, ?_, ?_, ?_⟩
  · intro attempts resp h0
    simp [AgentGateway.invoke_agent, AgentGateway.invokeAgentLoop,
      AgentGateway.max_retries, h0]
  · intro attempts e0 resp h0 h1
    cases e0 <;>
      simp [AgentGateway.invoke_agent, AgentGateway.invokeAgentLoop,
        AgentGateway.max_retries, h0, h1, timeoutCount]
  · intro attempts e0 e1 resp h0 h1 h2
    cases e0 <;> cases e1 <;>
      simp [AgentGateway.invoke_agent, AgentGateway.invokeAgentLoop,
        AgentGateway.max_retries, AgentGateway.raiseLastOrGeneric, h0, h1, h2,
        timeoutCount]
  · intro attempts e0 e1 e2 h0 h1 h2
    cases e0 <;> cases e1 <;> cases e2 <;>
      simp [AgentGateway.invoke_agent, AgentGateway.invokeAgentLoop,
        AgentGateway.max_retries, AgentGateway.raiseLastOrGeneric, h0, h1, h2,
        timeoutCount]

/-- Witness for C5: one timeout then a success returns the success after
2 attempts with exactly one inter-attempt delay. -/
theorem C5_invoke_agent_retry_contract_witness :
    AgentGateway.invoke_agent
      (fun i => if i = 0 then .error (.timeoutExc "t") else .ok "r") =
      ⟨.ok "r", 2, 1⟩ := by
  have h := C5_invoke_agent_retry_contract.2.1
    (fun i => if i = 0 then .error (.timeoutExc "t") else .ok "r")
    (.timeoutExc "t") "r" (by simp) (by simp)
  simpa [timeoutCount] using h

/-- Helper for C10: once `last_exception` is set (or an attempt is still
to be made), the exhausted-loop raise is never the generic fallback. -/
lemma invokeAgentLoop_ne_generic (attempts : Nat → Except AttemptExc String) :
    ∀ n attempt last made sleeps,
      AgentGateway.max_retries - attempt ≤ n →
      (attempt < AgentGateway.max_retries ∨ last.isSome) →
      (AgentGateway.invokeAgentLoop attempts attempt last made sleeps).result ≠
        .error .genericMaxRetries := by
  intro n
  induction n with
  | zero =>
    intro attempt last made sleeps hn hcase
    rw [AgentGateway.invokeAgentLoop]
    have hge : ¬ attempt < AgentGateway.max_retries := by omega
    rcases hcase with h | h
    · omega
    · rcases last with _ | e
      · simp at h
      · simp [hge, AgentGateway.raiseLastOrGeneric]
  | succ n ih =>
    intro attempt last made sleeps hn hcase
    rw [AgentGateway.invokeAgentLoop]
    by_cases hlt : attempt < AgentGateway.max_retries
    · simp only [hlt, if_true]
      cases h0 : attempts attempt with
      | ok r => simp
      | error e =>
        cases e with
        | timeoutExc m => exact ih (attempt + 1) _ _ _ (by omega) (Or.inr rfl)
        | otherExc m => exact ih (attempt + 1) _ _ _ (by omega) (Or.inr rfl)
    · simp only [hlt, if_false]
      rcases hcase with h | h
      · omega
      · rcases last with _ | e
        · simp at h
        · simp [AgentGateway.raiseLastOrGeneric]

/-- **C10.** In `AgentGateway.invoke_agent`, a run that exhausts all
retry attempts made at least one attempt (`max_retries = 3 > 0`), so
`last_exception` is set and the raised exception is always the last
observed one; the fallback `TimeoutError("Max retries exceeded")` branch
is unreachable. -/
theorem C10_fallback_unreachable :
    (∀ attempts, (AgentGateway.invoke_agent attempts).result ≠
      .error .genericMaxRetries) ∧
    (∀ attempts e0 e1 e2, attempts 0 = .error e0 → attempts 1 = .error e1 →
      attempts 2 = .error e2 →
      (AgentGateway.invoke_agent attempts).result = .error (.fromAttempt e2)) := by
  constructor
  · intro attempts
    exact invokeAgentLoop_ne_generic attempts AgentGateway.max_retries 0 none 0 0
      (by omega) (Or.inl (by simp [AgentGateway.max_retries]))
  · intro attempts e0 e1 e2 h0 h1 h2
    cases e0 <;> cases e1 <;> cases e2 <;>
      simp [AgentGateway.invoke_agent, AgentGateway.invokeAgentLoop,
        AgentGateway.max_retries, AgentGateway.raiseLastOrGeneric, h0, h1, h2]

/-! ### Keepalive counting facts used for the heartbeat claims. -/

/-- A call that outlasts the 30-second heartbeat period forwards at
least one keepalive (the tick at t = 30). -/
lemma keepaliveCount_pos (d : Nat) (h : 30 < d) : 1 ≤ keepaliveCount d := by
  have hpos : 0 < keepaliveCount d := by
    rw [keepaliveCount, List.countP_pos_iff]
    exact ⟨30, List.mem_range.mpr h, rfl⟩
  omega

/-- A call that completes before the first 30-second tick forwards no
keepalive. -/
lemma keepaliveCount_eq_zero (d : Nat) (h : d < 30) : keepaliveCount d = 0 := by
  rw [keepaliveCount, List.countP_eq_zero]
  intro t ht
  rw [List.mem_range] at ht
  simp only [Bool.and_eq_true, decide_eq_true_eq, beq_iff_eq]
  omega

/-! ### Registry facts (`TaskExecutor.__init__`). -/

/-- One dict assignment adds exactly the key `k` to the lookup domain. -/
lemma isSome_dictGet?_dictInsert (d : List (String × TaskAgent)) (k : String)
    (v : TaskAgent) (k' : String) :
    (dictGet? (dictInsert d k v) k').isSome = true ↔
      (k' = k ∨ (dictGet? d k').isSome = true) := by
  unfold dictGet? dictInsert
  rw [Option.isSome_map', Option.isSome_map', List.find?_isSome, List.find?_isSome]
  by_cases hany : d.any (fun p => p.1 == k)
  · simp only [hany, if_true]
    constructor
    · rintro ⟨p, hp, hkey⟩
      rw [List.mem_map] at hp
      obtain ⟨q, hq, rfl⟩ := hp
      by_cases hqk : q.1 == k
      · left
        simp only [hqk, if_true] at hkey
        simp only [beq_iff_eq] at hkey
        exact hkey.symm
      · right
        refine ⟨q, hq, ?_⟩
        simpa [hqk] using hkey
    · rintro (rfl | ⟨p, hp, hkey⟩)
      · rw [List.any_eq_true] at hany
        obtain ⟨q, hq, hqk⟩ := hany
        exact ⟨(k', v), List.mem_map.mpr ⟨q, hq, by simp [hqk]⟩, by simp⟩
      · by_cases hpk : p.1 == k
        · refine ⟨(k, v), List.mem_map.mpr ⟨p, hp, by simp [hpk]⟩, ?_⟩
          simp only [beq_iff_eq] at hkey hpk ⊢
          exact hpk.symm.trans hkey
        · exact ⟨p, List.mem_map.mpr ⟨p, hp, by simp [hpk]⟩, hkey⟩
  · simp only [if_neg hany]
    constructor
    · rintro ⟨p, hp, hkey⟩
      rw [List.mem_append] at hp
      rcases hp with hp | hp
      · exact Or.inr ⟨p, hp, hkey⟩
      · simp only [List.mem_singleton] at hp
        subst hp
        simp only [beq_iff_eq] at hkey
        exact Or.inl hkey.symm
    · rintro (rfl | ⟨p, hp, hkey⟩)
      · exact ⟨(k', v), List.mem_append.mpr (Or.inr (by simp)), by simp⟩
      · exact ⟨p, List.mem_append.mpr (Or.inl hp), hkey⟩

/-- Keys reachable after folding registrations over an accumulator. -/
lemma isSome_dictGet?_foldl (l : List TaskAgent) :
    ∀ (d : List (String × TaskAgent)) (k : String),
      (dictGet? (l.foldl (fun d a => dictInsert d a.registryKey a) d) k).isSome = true ↔
        ((dictGet? d k).isSome = true ∨ ∃ a ∈ l, a.registryKey = k) := by
  induction l with
  | nil => intro d k; simp
  | cons a l ih =>
    intro d k
    simp only [List.foldl_cons]
    rw [ih, isSome_dictGet?_dictInsert]
    constructor
    · rintro ((rfl | h) | ⟨b, hb, hbk⟩)
      · exact Or.inr ⟨a, by simp⟩
      · exact Or.inl h
      · exact Or.inr ⟨b, by simp [hb], hbk⟩
    · rintro (h | ⟨b, hb, hbk⟩)
      · exact Or.inl (Or.inr h)
      · rcases List.mem_cons.mp hb with rfl | hb
        · exact Or.inl (Or.inl hbk.symm)
        · exact Or.inr ⟨b, hb, hbk⟩

/-- The lookup domain of the TaskExecutor registry is exactly the set of
`name:version` keys of the registered agents. -/
lemma isSome_dictGet?_buildAgents (agents : List TaskAgent) (k : String) :
    (dictGet? (TaskExecutor.buildAgents agents) k).isSome = true ↔
      ∃ a ∈ agents, a.registryKey = k := by
  rw [TaskExecutor.buildAgents, isSome_dictGet?_foldl]
  simp [dictGet?]

/-- Witness for C10: three observed failures raise the third one, not
the generic fallback. -/
theorem C10_fallback_unreachable_witness :
    (AgentGateway.invoke_agent
      (fun i => if i = 0 then .error (.otherExc "a")
                else if i = 1 then .error (.timeoutExc "b")
                else .error (.otherExc "c"))).result =
      .error (.fromAttempt (.otherExc "c")) ∧
    (AgentGateway.invoke_agent
      (fun i => if i = 0 then .error (.otherExc "a")
                else if i = 1 then .error (.timeoutExc "b")
                else .error (.otherExc "c"))).result ≠
      .error .genericMaxRetries := by
  refine ⟨C10_fallback_unreachable.2 _ (.otherExc "a") (.timeoutExc "b")
    (.otherExc "c") (by simp) (by simp) (by simp), C10_fallback_unreachable.1 _⟩

/-- **C6.** In `TaskExecutor.execute_task_sse`, when the remote call
raises, the stream yields an ErrorResponse carrying the original
exception detail as its last item and terminates; the only conversation
append on that path carries the initial empty `task_result`, not a
decoded result content.  On success, exactly one conversation item is
appended and it carries the decoded `output_raw`. -/
theorem C6_execute_task_sse_error_no_success_item :
    (∀ agents task_id instructions agent_name conv sid src rid dur e ag,
      dictGet? agents agent_name = some ag →
      TaskExecutor.execute_task_sse agents task_id instructions agent_name conv
          sid src rid dur (.error e) =
        .ok (.event .AGENT_REQUEST (.agentRequest
              ⟨sid, src, rid, task_id, agent_name, instructions⟩) ::
             List.replicate (keepaliveCount dur) (.keepalive taskKeepaliveLine) ++
             [.event .ERROR (.errorResponse
               ⟨sid, src, rid, 500, "Unexpected error occurred: " ++ e⟩)],
             conv.add_item task_id agent_name instructions "")) ∧
    (∀ agents task_id instructions agent_name conv sid src rid dur resp ag,
      dictGet? agents agent_name = some ag →
      TaskExecutor.execute_task_sse agents task_id instructions agent_name conv
          sid src rid dur (.ok resp) =
        .ok (.event .AGENT_REQUEST (.agentRequest
              ⟨sid, src, rid, task_id, agent_name, instructions⟩) ::
             List.replicate (keepaliveCount dur) (.keepalive taskKeepaliveLine) ++
             [.event .FINAL_RESPONSE (.invokeResponse resp)],
             conv.add_item task_id agent_name instructions resp.output_raw)) := by
  constructor
  · intro agents task_id instructions agent_name conv sid src rid dur e ag h
    simp [TaskExecutor.execute_task_sse, h, TaskAgent.isTruthy]
  · intro agents task_id instructions agent_name conv sid src rid dur resp ag h
    simp [TaskExecutor.execute_task_sse, h, TaskAgent.isTruthy]

/-- Witness for C6: a failing call on a registered agent yields the
ErrorResponse last and appends the empty-result item; a succeeding call
appends the decoded content. -/
theorem C6_execute_task_sse_error_no_success_item_witness :
    TaskExecutor.execute_task_sse [("A:1", ⟨⟨"A", "1"⟩⟩)] "t1" "do" "A:1" ⟨[]⟩
        "s" "o" "r" 0 (.error "boom") =
      .ok ([.event .AGENT_REQUEST (.agentRequest ⟨"s", "o", "r", "t1", "A:1", "do"⟩),
            .event .ERROR (.errorResponse
              ⟨"s", "o", "r", 500, "Unexpected error occurred: boom"⟩)],
           ⟨[⟨"t1", "A:1", "do", ""⟩]⟩) ∧
    TaskExecutor.execute_task_sse [("A:1", ⟨⟨"A", "1"⟩⟩)] "t1" "do" "A:1" ⟨[]⟩
        "s" "o" "r" 0 (.ok ⟨"s2", "o2", "r2", ⟨1, 2, 3⟩, "res"⟩) =
      .ok ([.event .AGENT_REQUEST (.agentRequest ⟨"s", "o", "r", "t1", "A:1", "do"⟩),
            .event .FINAL_RESPONSE (.invokeResponse ⟨"s2", "o2", "r2", ⟨1, 2, 3⟩, "res"⟩)],
           ⟨[⟨"t1", "A:1", "do", "res"⟩]⟩) := by
  constructor
  · have h := C6_execute_task_sse_error_no_success_item.1
      [("A:1", ⟨⟨"A", "1"⟩⟩)] "t1" "do" "A:1" ⟨[]⟩ "s" "o" "r" 0 "boom"
      ⟨⟨"A", "1"⟩⟩ rfl
    simpa [keepaliveCount, Conversation.add_item] using h
  · have h := C6_execute_task_sse_error_no_success_item.2
      [("A:1", ⟨⟨"A", "1"⟩⟩)] "t1" "do" "A:1" ⟨[]⟩ "s" "o" "r" 0
      ⟨"s2", "o2", "r2", ⟨1, 2, 3⟩, "res"⟩ ⟨⟨"A", "1"⟩⟩ rfl
    simpa [keepaliveCount, Conversation.add_item] using h

/-- **C8.** `TaskExecutor.execute_task_sse` (idealized discrete-time
scheduler): when the remote call outlasts the 30-second heartbeat period
the stream carries at least one keepalive, when the call completes
before the first period it carries none, and in both cases it carries
exactly one terminal event (a final InvokeResponse or an
ErrorResponse). -/
theorem C8_keepalive_and_single_terminal :
    (∀ agents task_id instructions agent_name conv sid src rid dur out ag items conv2,
      dictGet? agents agent_name = some ag →
      TaskExecutor.execute_task_sse agents task_id instructions agent_name conv
          sid src rid dur out = .ok (items, conv2) →
      30 < dur →
      1 ≤ items.countP (fun i => i.isKeepalive) ∧
        items.countP (fun i => i.isTerminalTaskEvent) = 1) ∧
    (∀ agents task_id instructions agent_name conv sid src rid dur out ag items conv2,
      dictGet? agents agent_name = some ag →
      TaskExecutor.execute_task_sse agents task_id instructions agent_name conv
          sid src rid dur out = .ok (items, conv2) →
      dur < 30 →
      items.countP (fun i => i.isKeepalive) = 0 ∧
        items.countP (fun i => i.isTerminalTaskEvent) = 1) := by
  constructor
  · intro agents task_id instructions agent_name conv sid src rid dur out ag items
      conv2 hag hrun hdur
    rw [TaskExecutor.execute_task_sse] at hrun
    rw [hag] at hrun
    simp only [TaskAgent.isTruthy, Bool.not_true, if_false, Bool.false_eq_true] at hrun
    have hk := keepaliveCount_pos dur hdur
    cases out with
    | ok resp =>
      obtain ⟨rfl, rfl⟩ : _ ∧ _ := by
        injection hrun with h1
        injection h1 with h2 h3
        exact ⟨h2.symm, h3.symm⟩
      constructor
      · simp [List.countP_cons, List.countP_append, List.countP_replicate,
          StreamItem.isKeepalive]
        omega
      · simp [List.countP_cons, List.countP_append, List.countP_replicate,
          StreamItem.isTerminalTaskEvent]
    | error e =>
      obtain ⟨rfl, rfl⟩ : _ ∧ _ := by
        injection hrun with h1
        injection h1 with h2 h3
        exact ⟨h2.symm, h3.symm⟩
      constructor
      · simp [List.countP_cons, List.countP_append, List.countP_replicate,
          StreamItem.isKeepalive]
        omega
      · simp [List.countP_cons, List.countP_append, List.countP_replicate,
          StreamItem.isTerminalTaskEvent]
  · intro agents task_id instructions agent_name conv sid src rid dur out ag items
      conv2 hag hrun hdur
    rw [TaskExecutor.execute_task_sse] at hrun
    rw [hag] at hrun
    simp only [TaskAgent.isTruthy, Bool.not_true, if_false, Bool.false_eq_true] at hrun
    have hk := keepaliveCount_eq_zero dur hdur
    cases out with
    | ok resp =>
      obtain ⟨rfl, rfl⟩ : _ ∧ _ := by
        injection hrun with h1
        injection h1 with h2 h3
        exact ⟨h2.symm, h3.symm⟩
      constructor
      · simp [List.countP_cons, List.countP_append, List.countP_replicate,
          StreamItem.isKeepalive, hk]
      · simp [List.countP_cons, List.countP_append, List.countP_replicate,
          StreamItem.isTerminalTaskEvent]
    | error e =>
      obtain ⟨rfl, rfl⟩ : _ ∧ _ := by
        injection hrun with h1
        injection h1 with h2 h3
        exact ⟨h2.symm, h3.symm⟩
      constructor
      · simp [List.countP_cons, List.countP_append, List.countP_replicate,
          StreamItem.isKeepalive, hk]
      · simp [List.countP_cons, List.countP_append, List.countP_replicate,
          StreamItem.isTerminalTaskEvent]

/-- Witness for C8: a 31-second successful call forwards a keepalive and
one terminal event; a 5-second failing call forwards no keepalive and
one terminal event. -/
theorem C8_keepalive_and_single_terminal_witness :
    (1 ≤ ([.event .AGENT_REQUEST (.agentRequest ⟨"s", "o", "r", "t1", "A:1", "do"⟩),
           .keepalive taskKeepaliveLine,
           .event .FINAL_RESPONSE (.invokeResponse ⟨"s2", "o2", "r2", ⟨1, 2, 3⟩, "res"⟩)] :
          List StreamItem).countP (fun i => i.isKeepalive) ∧
     ([.event .AGENT_REQUEST (.agentRequest ⟨"s", "o", "r", "t1", "A:1", "do"⟩),
       .keepalive taskKeepaliveLine,
       .event .FINAL_RESPONSE (.invokeResponse ⟨"s2", "o2", "r2", ⟨1, 2, 3⟩, "res"⟩)] :
          List StreamItem).countP (fun i => i.isTerminalTaskEvent) = 1) ∧
    (([.event .AGENT_REQUEST (.agentRequest ⟨"s", "o", "r", "t1", "A:1", "do"⟩),
       .event .ERROR (.errorResponse ⟨"s", "o", "r", 500, "Unexpected error occurred: boom"⟩)] :
          List StreamItem).countP (fun i => i.isKeepalive) = 0 ∧
     ([.event .AGENT_REQUEST (.agentRequest ⟨"s", "o", "r", "t1", "A:1", "do"⟩),
       .event .ERROR (.errorResponse ⟨"s", "o", "r", 500, "Unexpected error occurred: boom"⟩)] :
          List StreamItem).countP (fun i => i.isTerminalTaskEvent) = 1) := by
  constructor
  · exact C8_keepalive_and_single_terminal.1 [("A:1", ⟨⟨"A", "1"⟩⟩)] "t1" "do" "A:1"
      ⟨[]⟩ "s" "o" "r" 31 (.ok ⟨"s2", "o2", "r2", ⟨1, 2, 3⟩, "res"⟩) ⟨⟨"A", "1"⟩⟩ _ _
      rfl (by simp [TaskExecutor.execute_task_sse, TaskAgent.isTruthy]; rfl)
      (by omega)
  · exact C8_keepalive_and_single_terminal.2 [("A:1", ⟨⟨"A", "1"⟩⟩)] "t1" "do" "A:1"
      ⟨[]⟩ "s" "o" "r" 5 (.error "boom") ⟨⟨"A", "1"⟩⟩ _ _
      rfl (by simp [TaskExecutor.execute_task_sse, TaskAgent.isTruthy]; rfl)
      (by omega)

/-- **C9.** TaskExecutor registers agents under exactly the
`"{name}:{version}"` keys; an `agent_name` that is not a registered key
makes `execute_task_sse` raise the `KeyError` at the dict lookup; and
every exception the generator itself raises is that `KeyError`, so the
`ValueError("Task agent ... not found.")` guard is unreachable on every
path. -/
theorem C9_keyerror_and_dead_guard :
    (∀ agents k, (dictGet? (TaskExecutor.buildAgents agents) k).isSome = true ↔
      ∃ a ∈ agents, a.registryKey = k) ∧
    (∀ agents task_id instructions agent_name conv sid src rid dur out,
      (¬ ∃ a ∈ agents, a.registryKey = agent_name) →
      TaskExecutor.execute_task_sse (TaskExecutor.buildAgents agents) task_id
          instructions agent_name conv sid src rid dur out =
        .error ("KeyError: " ++ agent_name)) ∧
    (∀ reg task_id instructions agent_name conv sid src rid dur out s,
      TaskExecutor.execute_task_sse reg task_id instructions agent_name conv
          sid src rid dur out = .error s →
      s = "KeyError: " ++ agent_name) := by
  refine ⟨isSome_dictGet?_buildAgents, ?_, ?_⟩
  · intro agents task_id instructions agent_name conv sid src rid dur out h
    have hna : (dictGet? (TaskExecutor.buildAgents agents) agent_name) = none := by
      rcases hv : dictGet? (TaskExecutor.buildAgents agents) agent_name with _ | v
      · rfl
      · exact absurd ((isSome_dictGet?_buildAgents agents agent_name).mp (by rw [hv]; rfl)) h
    rw [TaskExecutor.execute_task_sse, hna]
  · intro reg task_id instructions agent_name conv sid src rid dur out s h
    rw [TaskExecutor.execute_task_sse] at h
    rcases hv : dictGet? reg agent_name with _ | v
    · rw [hv] at h
      exact (Except.error.injEq _ _).mp h.symm |>.symm ▸ rfl
    · rw [hv] at h
      simp only [TaskAgent.isTruthy, Bool.not_true, if_false, Bool.false_eq_true] at h
      cases out <;> simp at h

/-- Witness for C9: the single agent `A` version `1` is registered under
`"A:1"` only; looking up `"B:2"` raises the KeyError; and a raised
exception text is always the KeyError text. -/
theorem C9_keyerror_and_dead_guard_witness :
    ((dictGet? (TaskExecutor.buildAgents [⟨⟨"A", "1"⟩⟩]) "A:1").isSome = true ↔
      ∃ a ∈ [(⟨⟨"A", "1"⟩⟩ : TaskAgent)], a.registryKey = "A:1") ∧
    TaskExecutor.execute_task_sse (TaskExecutor.buildAgents [⟨⟨"A", "1"⟩⟩]) "t" "do"
        "B:2" ⟨[]⟩ "s" "o" "r" 0 (.ok ⟨"s2", "o2", "r2", ⟨1, 2, 3⟩, "res"⟩) =
      .error ("KeyError: " ++ "B:2") := by
  refine ⟨C9_keyerror_and_dead_guard.1 [⟨⟨"A", "1"⟩⟩] "A:1", ?_⟩
  refine C9_keyerror_and_dead_guard.2.1 [⟨⟨"A", "1"⟩⟩] "t" "do" "B:2" ⟨[]⟩ "s" "o" "r" 0
    (.ok ⟨"s2", "o2", "r2", ⟨1, 2, 3⟩, "res"⟩) ?_
  rintro ⟨a, ha, hk⟩
  simp only [List.mem_singleton] at ha
  subst ha
  simp [TaskAgent.registryKey] at hk

/-! ### TeamHandler round-loop theorems. -/

/-- **C1 (amended).** When the manager's action is PROVIDE_RESULT, the
handler emits a final InvokeResponse whose content is the result
recorded in the Conversation for the action's `result_task_id` — not the
content carried by the action — and terminates the round loop. -/
theorem C1_provide_result_emits_conversation_result :
    ∀ env b r conv d msg,
      b.manager r = .ok ⟨.provideResult d⟩ →
      conv.get_message_by_task_id d.result_task_id = some msg →
      TeamHandler.invokeLoop env b r conv =
        (List.replicate (keepaliveCount (b.managerDuration r))
            (.keepalive managerKeepaliveLine) ++
         [.event .MANAGER_RESPONSE (.managerResponse ⟨.provideResult d⟩),
          .event .FINAL_RESPONSE (.invokeResponse
            ⟨env.session_id, env.source, env.request_id, ⟨0, 0, 0⟩, msg.result⟩)],
         none) := by
  intro env b r conv d msg hm hc
  rw [TeamHandler.invokeLoop]
  simp [hm, hc]

/-- Witness for C1 (amended): with `"B"` recorded for task `"t"` in the
conversation, a PROVIDE_RESULT round emits a final InvokeResponse
carrying `"B"` and ends the stream. -/
theorem C1_provide_result_emits_conversation_result_witness :
    TeamHandler.invokeLoop ⟨"s", "o", "r", 3, []⟩
        ⟨fun _ => .ok ⟨.provideResult ⟨"A", "why", "t"⟩⟩, fun _ => 0, fun _ => 0,
         fun _ => .error "unused"⟩ 0 ⟨[⟨"t", "A:1", "do", "B"⟩]⟩ =
      ([.event .MANAGER_RESPONSE (.managerResponse ⟨.provideResult ⟨"A", "why", "t"⟩⟩),
        .event .FINAL_RESPONSE (.invokeResponse ⟨"s", "o", "r", ⟨0, 0, 0⟩, "B"⟩)],
       none) := by
  have h := C1_provide_result_emits_conversation_result ⟨"s", "o", "r", 3, []⟩
    ⟨fun _ => .ok ⟨.provideResult ⟨"A", "why", "t"⟩⟩, fun _ => 0, fun _ => 0,
     fun _ => .error "unused"⟩ 0 ⟨[⟨"t", "A:1", "do", "B"⟩]⟩ ⟨"A", "why", "t"⟩
    ⟨"t", "A:1", "do", "B"⟩ rfl (by decide)
  simpa [keepaliveCount] using h

/-- Counterexample for C1 as stated: the PROVIDE_RESULT action carries
content `"A"`, but the emitted final InvokeResponse carries `"B"` — the
conversation's recorded result for the action's `result_task_id` — so
the final content does not equal the action's content. -/
theorem C1_counterexample :
    (TeamHandler.invoke
        ⟨"sess", "svc:1", "req", 3, TaskExecutor.buildAgents [⟨⟨"A", "1"⟩⟩]⟩
        ⟨fun r => if r = 0 then .ok ⟨.assignNewTask ⟨"t", "do", "A:1"⟩⟩
                  else .ok ⟨.provideResult ⟨"A", "because", "t"⟩⟩,
         fun _ => 0, fun _ => 0,
         fun _ => .ok ⟨"s2", "src2", "r2", ⟨1, 2, 3⟩, "B"⟩⟩).1.getLast? =
      some (.event .FINAL_RESPONSE (.invokeResponse
        ⟨"sess", "svc:1", "req", ⟨0, 0, 0⟩, "B"⟩)) ∧
    (TeamHandler.invoke
        ⟨"sess", "svc:1", "req", 3, TaskExecutor.buildAgents [⟨⟨"A", "1"⟩⟩]⟩
        ⟨fun r => if r = 0 then .ok ⟨.assignNewTask ⟨"t", "do", "A:1"⟩⟩
                  else .ok ⟨.provideResult ⟨"A", "because", "t"⟩⟩,
         fun _ => 0, fun _ => 0,
         fun _ => .ok ⟨"s2", "src2", "r2", ⟨1, 2, 3⟩, "B"⟩⟩).1.getLast? ≠
      some (.event .FINAL_RESPONSE (.invokeResponse
        ⟨"sess", "svc:1", "req", ⟨0, 0, 0⟩, "A"⟩)) := by
  constructor <;>
    simp [TeamHandler.invoke, TeamHandler.invokeLoop, TeamHandler.execute_task,
      TaskExecutor.execute_task_sse, TaskExecutor.buildAgents, dictInsert, dictGet?,
      TaskAgent.registryKey, TaskAgent.isTruthy, keepaliveCount,
      Conversation.add_item, Conversation.get_message_by_task_id]

/-- **C7 (amended).** When the manager's action is ABORT, the handler
emits — under `EventType.ERROR`, the same event type used for
exception-triggered errors — an AbortResult whose reason is the action's
reason, and terminates the loop; the termination is distinguishable from
exception termination only by the payload class (AbortResult, never
ErrorResponse). -/
theorem C7_abort_emits_abort_result_under_error_type :
    ∀ env b r conv d,
      b.manager r = .ok ⟨.abortAction d⟩ →
      TeamHandler.invokeLoop env b r conv =
        (List.replicate (keepaliveCount (b.managerDuration r))
            (.keepalive managerKeepaliveLine) ++
         [.event .MANAGER_RESPONSE (.managerResponse ⟨.abortAction d⟩),
          .event .ERROR (.abortResult
            ⟨env.session_id, env.source, env.request_id, d.abort_reason⟩)],
         none) ∧
      ∀ e : ErrorResponse,
        Payload.abortResult ⟨env.session_id, env.source, env.request_id, d.abort_reason⟩ ≠
          Payload.errorResponse e := by
  intro env b r conv d hm
  constructor
  · rw [TeamHandler.invokeLoop]
    simp [hm]
  · intro e h
    cases h

/-- Witness for C7 (amended): an ABORT round emits the AbortResult under
the ERROR event type and ends the stream. -/
theorem C7_abort_emits_abort_result_under_error_type_witness :
    TeamHandler.invokeLoop ⟨"s", "o", "r", 3, []⟩
        ⟨fun _ => .ok ⟨.abortAction ⟨"cannot fulfil"⟩⟩, fun _ => 0, fun _ => 0,
         fun _ => .error "unused"⟩ 0 ⟨[]⟩ =
      ([.event .MANAGER_RESPONSE (.managerResponse ⟨.abortAction ⟨"cannot fulfil"⟩⟩),
        .event .ERROR (.abortResult ⟨"s", "o", "r", "cannot fulfil"⟩)], none) := by
  have h := (C7_abort_emits_abort_result_under_error_type ⟨"s", "o", "r", 3, []⟩
    ⟨fun _ => .ok ⟨.abortAction ⟨"cannot fulfil"⟩⟩, fun _ => 0, fun _ => 0,
     fun _ => .error "unused"⟩ 0 ⟨[]⟩ ⟨"cannot fulfil"⟩ rfl).1
  simpa [keepaliveCount] using h

/-- Counterexample for C7 as stated: the abort event is emitted under
`EventType.ERROR` — the very event type used for exception-triggered
error termination — so the termination is not a non-error outcome at the
event-type level. -/
theorem C7_counterexample :
    (TeamHandler.invoke ⟨"s", "o", "r", 3, []⟩
        ⟨fun _ => .ok ⟨.abortAction ⟨"cannot fulfil"⟩⟩, fun _ => 0, fun _ => 0,
         fun _ => .error "unused"⟩).1.getLast? =
      some (.event .ERROR (.abortResult ⟨"s", "o", "r", "cannot fulfil"⟩)) ∧
    ((StreamItem.event .ERROR (.abortResult ⟨"s", "o", "r", "cannot fulfil"⟩)).eventType? =
      some EventType.ERROR) := by
  constructor
  · simp [TeamHandler.invoke, TeamHandler.invokeLoop, keepaliveCount]
  · rfl

/-- **C2 (amended).** Exceptions from the manager call and from task
execution are each caught and reported as a single `EventType.ERROR`
event carrying `ErrorResponse(500, str(e))`, and are never re-raised;
but the two are not distinguished (same shape, no task id), and only a
manager-call exception terminates the stream — after a task-execution
exception the loop continues into the next round (here: whenever
`round+1 < max_rounds`). -/
theorem C2_exceptions_caught_not_distinguished :
    (∀ env b r conv e,
      b.manager r = .error e →
      TeamHandler.invokeLoop env b r conv =
        (List.replicate (keepaliveCount (b.managerDuration r))
            (.keepalive managerKeepaliveLine) ++
         [.event .ERROR (.errorResponse
           ⟨env.session_id, env.source, env.request_id, 500, e⟩)],
         none)) ∧
    (∀ env b r conv d ag e,
      b.manager r = .ok ⟨.assignNewTask d⟩ →
      dictGet? env.agents d.agent_name = some ag →
      b.taskOutcome r = .error e →
      r + 1 < env.max_rounds →
      TeamHandler.invokeLoop env b r conv =
        (List.replicate (keepaliveCount (b.managerDuration r))
            (.keepalive managerKeepaliveLine) ++
         [.event .MANAGER_RESPONSE (.managerResponse ⟨.assignNewTask d⟩),
          .event .AGENT_REQUEST (.agentRequest
            ⟨env.session_id, env.source, env.request_id, d.task_id, d.agent_name,
             d.instructions⟩)] ++
         List.replicate (keepaliveCount (b.taskDuration r))
            (.keepalive taskKeepaliveLine) ++
         [.event .ERROR (.errorResponse
           ⟨env.session_id, env.source, env.request_id, 500,
            "Unexpected error occurred: " ++ e⟩)] ++
         (TeamHandler.invokeLoop env b (r + 1)
            (conv.add_item d.task_id d.agent_name d.instructions "")).1,
         (TeamHandler.invokeLoop env b (r + 1)
            (conv.add_item d.task_id d.agent_name d.instructions "")).2)) := by
  constructor
  · intro env b r conv e hm
    rw [TeamHandler.invokeLoop]
    simp [hm]
  · intro env b r conv d ag e hm hag hout hlt
    rw [TeamHandler.invokeLoop]
    have hcond : ¬ env.max_rounds ≤ r + 1 := by omega
    simp [hm, TeamHandler.execute_task, TaskExecutor.execute_task_sse, hag,
      TaskAgent.isTruthy, hout, hcond]

/-- Witness for C2 (amended): a manager exception at round 0 ends the
stream with one ErrorResponse; a task exception at round 0 yields one
ErrorResponse and the loop then runs round 1 (where the manager
aborts). -/
theorem C2_exceptions_caught_not_distinguished_witness :
    TeamHandler.invokeLoop ⟨"s", "o", "r", 2, []⟩
        ⟨fun _ => .error "mgr boom", fun _ => 0, fun _ => 0, fun _ => .error "x"⟩ 0 ⟨[]⟩ =
      ([.event .ERROR (.errorResponse ⟨"s", "o", "r", 500, "mgr boom"⟩)], none) ∧
    TeamHandler.invokeLoop ⟨"s", "o", "r", 2, [("A:1", ⟨⟨"A", "1"⟩⟩)]⟩
        ⟨fun r => if r = 0 then .ok ⟨.assignNewTask ⟨"t1", "do", "A:1"⟩⟩
                  else .ok ⟨.abortAction ⟨"give up"⟩⟩,
         fun _ => 0, fun _ => 0, fun _ => .error "task boom"⟩ 0 ⟨[]⟩ =
      ([.event .MANAGER_RESPONSE (.managerResponse ⟨.assignNewTask ⟨"t1", "do", "A:1"⟩⟩),
        .event .AGENT_REQUEST (.agentRequest ⟨"s", "o", "r", "t1", "A:1", "do"⟩),
        .event .ERROR (.errorResponse
          ⟨"s", "o", "r", 500, "Unexpected error occurred: task boom"⟩),
        .event .MANAGER_RESPONSE (.managerResponse ⟨.abortAction ⟨"give up"⟩⟩),
        .event .ERROR (.abortResult ⟨"s", "o", "r", "give up"⟩)], none) := by
  constructor
  · have h := C2_exceptions_caught_not_distinguished.1 ⟨"s", "o", "r", 2, []⟩
      ⟨fun _ => .error "mgr boom", fun _ => 0, fun _ => 0, fun _ => .error "x"⟩ 0 ⟨[]⟩
      "mgr boom" rfl
    simpa [keepaliveCount] using h
  · have h := C2_exceptions_caught_not_distinguished.2 ⟨"s", "o", "r", 2, [("A:1", ⟨⟨"A", "1"⟩⟩)]⟩
      ⟨fun r => if r = 0 then .ok ⟨.assignNewTask ⟨"t1", "do", "A:1"⟩⟩
                else .ok ⟨.abortAction ⟨"give up"⟩⟩,
       fun _ => 0, fun _ => 0, fun _ => .error "task boom"⟩ 0 ⟨[]⟩
      ⟨"t1", "do", "A:1"⟩ ⟨⟨"A", "1"⟩⟩ "task boom" (by simp) (by decide) rfl
      (by decide)
    rw [h]
    simp [TeamHandler.invokeLoop, keepaliveCount, Conversation.add_item]

/-- Counterexample for C2 as stated: after the task-execution exception
at round 0 is reported, the stream does not terminate — round 1 still
runs (its MANAGER_RESPONSE and abort events follow the ErrorResponse). -/
theorem C2_counterexample :
    (TeamHandler.invoke ⟨"s", "o", "r", 2, [("A:1", ⟨⟨"A", "1"⟩⟩)]⟩
        ⟨fun r => if r = 0 then .ok ⟨.assignNewTask ⟨"t1", "fail this", "A:1"⟩⟩
                  else .ok ⟨.abortAction ⟨"done"⟩⟩,
         fun _ => 0, fun _ => 0, fun _ => .error "boom"⟩).1 =
      [.event .MANAGER_RESPONSE (.managerResponse ⟨.assignNewTask ⟨"t1", "fail this", "A:1"⟩⟩),
       .event .AGENT_REQUEST (.agentRequest ⟨"s", "o", "r", "t1", "A:1", "fail this"⟩),
       .event .ERROR (.errorResponse
         ⟨"s", "o", "r", 500, "Unexpected error occurred: boom"⟩),
       .event .MANAGER_RESPONSE (.managerResponse ⟨.abortAction ⟨"done"⟩⟩),
       .event .ERROR (.abortResult ⟨"s", "o", "r", "done"⟩)] ∧
    (TeamHandler.invoke ⟨"s", "o", "r", 2, [("A:1", ⟨⟨"A", "1"⟩⟩)]⟩
        ⟨fun r => if r = 0 then .ok ⟨.assignNewTask ⟨"t1", "fail this", "A:1"⟩⟩
                  else .ok ⟨.abortAction ⟨"done"⟩⟩,
         fun _ => 0, fun _ => 0, fun _ => .error "boom"⟩).1.length = 5 := by
  constructor <;>
    simp [TeamHandler.invoke, TeamHandler.invokeLoop, TeamHandler.execute_task,
      TaskExecutor.execute_task_sse, dictGet?, TaskAgent.isTruthy, keepaliveCount,
      Conversation.add_item]

/-- The items forwarded from one `_execute_task` call contain no
MANAGER_RESPONSE-with-ASSIGN event and no TEAM_EXECUTION_END event. -/
lemma execute_task_countP_eq_zero
    (agents : List (String × TaskAgent)) (task_id instructions agent_name : String)
    (conv : Conversation) (sid src rid : String) (dur : Nat)
    (out : Except String InvokeResponse) :
    ((TeamHandler.execute_task agents task_id instructions agent_name conv
        sid src rid dur out).1.countP (fun i => i.isAssignResponse)) = 0 ∧
    ((TeamHandler.execute_task agents task_id instructions agent_name conv
        sid src rid dur out).1.countP
      (fun i => i.eventType? == some EventType.TEAM_EXECUTION_END)) = 0 := by
  rcases hag : dictGet? agents agent_name with _ | ag <;>
    cases out <;>
      simp [TeamHandler.execute_task, TaskExecutor.execute_task_sse, hag,
        TaskAgent.isTruthy, List.countP_cons, List.countP_append,
        List.countP_replicate, StreamItem.isAssignResponse, StreamItem.eventType?]

/-! Pointwise evaluations of the stream predicates, used to keep the
counting proofs from unfolding definitions under binders. -/

lemma teamEndPred_keepalive (s : String) :
    ((StreamItem.keepalive s).eventType? == some EventType.TEAM_EXECUTION_END) = false := rfl

lemma teamEndPred_event_mgr (p : Payload) :
    ((StreamItem.event .MANAGER_RESPONSE p).eventType? ==
      some EventType.TEAM_EXECUTION_END) = false := rfl

lemma teamEndPred_event_error (p : Payload) :
    ((StreamItem.event .ERROR p).eventType? ==
      some EventType.TEAM_EXECUTION_END) = false := rfl

lemma teamEndPred_event_final (p : Payload) :
    ((StreamItem.event .FINAL_RESPONSE p).eventType? ==
      some EventType.TEAM_EXECUTION_END) = false := rfl

lemma teamEndPred_event_agentReq (p : Payload) :
    ((StreamItem.event .AGENT_REQUEST p).eventType? ==
      some EventType.TEAM_EXECUTION_END) = false := rfl

lemma assignPred_keepalive (s : String) :
    (StreamItem.keepalive s).isAssignResponse = false := rfl

lemma assignPred_event_assign (d : AssignDetail) :
    (StreamItem.event .MANAGER_RESPONSE
      (.managerResponse ⟨.assignNewTask d⟩)).isAssignResponse = true := rfl

lemma assignPred_event_mgr_provide (d : ResultDetail) :
    (StreamItem.event .MANAGER_RESPONSE
      (.managerResponse ⟨.provideResult d⟩)).isAssignResponse = false := rfl

lemma assignPred_event_mgr_abort (d : AbortDetail) :
    (StreamItem.event .MANAGER_RESPONSE
      (.managerResponse ⟨.abortAction d⟩)).isAssignResponse = false := rfl

lemma assignPred_event_mgr_unknown (t : String) :
    (StreamItem.event .MANAGER_RESPONSE
      (.managerResponse ⟨.unknown t⟩)).isAssignResponse = false := rfl

lemma assignPred_event_error (p : Payload) :
    (StreamItem.event .ERROR p).isAssignResponse = false := rfl

lemma assignPred_event_final (p : Payload) :
    (StreamItem.event .FINAL_RESPONSE p).isAssignResponse = false := rfl

lemma assignPred_event_agentReq (p : Payload) :
    (StreamItem.event .AGENT_REQUEST p).isAssignResponse = false := rfl

/-- No round of the loop ever emits a TEAM_EXECUTION_END event. -/
lemma invokeLoop_countP_teamEnd (env : TeamEnv) (b : RoundBehavior) :
    ∀ n r conv, env.max_rounds - r ≤ n →
      ((TeamHandler.invokeLoop env b r conv).1.countP
        (fun i => i.eventType? == some EventType.TEAM_EXECUTION_END)) = 0 := by
  intro n
  induction n with
  | zero =>
    intro r conv hn
    rw [TeamHandler.invokeLoop]
    cases hm : b.manager r with
    | error e =>
      simp only [List.countP_append, List.countP_cons, List.countP_nil,
        List.countP_replicate, teamEndPred_keepalive, teamEndPred_event_error]
      norm_num
    | ok mo =>
      obtain ⟨a⟩ := mo
      cases a with
      | assignNewTask d =>
        have hcond : env.max_rounds ≤ r + 1 := by omega
        have hstep := (execute_task_countP_eq_zero env.agents d.task_id d.instructions
          d.agent_name conv env.session_id env.source env.request_id
          (b.taskDuration r) (b.taskOutcome r)).2
        simp only [dif_pos hcond, List.countP_append, List.countP_cons, List.countP_nil,
          List.countP_replicate, teamEndPred_keepalive, teamEndPred_event_mgr,
          teamEndPred_event_error, hstep]
        norm_num
      | provideResult d =>
        rcases hc : conv.get_message_by_task_id d.result_task_id with _ | msg <;>
          simp only [hc, List.countP_append, List.countP_cons, List.countP_nil,
            List.countP_replicate, teamEndPred_keepalive, teamEndPred_event_mgr,
            teamEndPred_event_final] <;>
          norm_num
      | abortAction d =>
        simp only [List.countP_append, List.countP_cons, List.countP_nil,
          List.countP_replicate, teamEndPred_keepalive, teamEndPred_event_mgr,
          teamEndPred_event_error]
        norm_num
      | unknown t =>
        simp only [List.countP_append, List.countP_cons, List.countP_nil,
          List.countP_replicate, teamEndPred_keepalive, teamEndPred_event_mgr,
          teamEndPred_event_error]
        norm_num
  | succ n ih =>
    intro r conv hn
    rw [TeamHandler.invokeLoop]
    cases hm : b.manager r with
    | error e =>
      simp only [List.countP_append, List.countP_cons, List.countP_nil,
        List.countP_replicate, teamEndPred_keepalive, teamEndPred_event_error]
      norm_num
    | ok mo =>
      obtain ⟨a⟩ := mo
      cases a with
      | assignNewTask d =>
        have hstep := (execute_task_countP_eq_zero env.agents d.task_id d.instructions
          d.agent_name conv env.session_id env.source env.request_id
          (b.taskDuration r) (b.taskOutcome r)).2
        by_cases hcond : env.max_rounds ≤ r + 1
        · simp only [dif_pos hcond, List.countP_append, List.countP_cons,
            List.countP_nil, List.countP_replicate, teamEndPred_keepalive,
            teamEndPred_event_mgr, teamEndPred_event_error, hstep]
          norm_num
        · have hrest := ih (r + 1)
            ((TeamHandler.execute_task env.agents d.task_id d.instructions
              d.agent_name conv env.session_id env.source env.request_id
              (b.taskDuration r) (b.taskOutcome r)).2) (by omega)
          simp only [dif_neg hcond, List.countP_append, List.countP_cons,
            List.countP_nil, List.countP_replicate, teamEndPred_keepalive,
            teamEndPred_event_mgr, teamEndPred_event_error, hstep, hrest]
          norm_num
      | provideResult d =>
        rcases hc : conv.get_message_by_task_id d.result_task_id with _ | msg <;>
          simp only [hc, List.countP_append, List.countP_cons, List.countP_nil,
            List.countP_replicate, teamEndPred_keepalive, teamEndPred_event_mgr,
            teamEndPred_event_final] <;>
          norm_num
      | abortAction d =>
        simp only [List.countP_append, List.countP_cons, List.countP_nil,
          List.countP_replicate, teamEndPred_keepalive, teamEndPred_event_mgr,
          teamEndPred_event_error]
        norm_num
      | unknown t =>
        simp only [List.countP_append, List.countP_cons, List.countP_nil,
          List.countP_replicate, teamEndPred_keepalive, teamEndPred_event_mgr,
          teamEndPred_event_error]
        norm_num

/-- **C4 (amended).** No terminal path of a TeamHandler invocation emits
a TEAM_EXECUTION_END event: the handler emits no such event at all;
streams end with their terminal payload event (final response, abort
result, or error response). -/
theorem C4_no_team_execution_end_event :
    ∀ env b r conv,
      ((TeamHandler.invokeLoop env b r conv).1.countP
        (fun i => i.eventType? == some EventType.TEAM_EXECUTION_END)) = 0 ∧
      ((TeamHandler.invoke env b).1.countP
        (fun i => i.eventType? == some EventType.TEAM_EXECUTION_END)) = 0 := by
  intro env b r conv
  exact ⟨invokeLoop_countP_teamEnd env b (env.max_rounds - r) r conv (by omega),
    invokeLoop_countP_teamEnd env b env.max_rounds 0 ⟨[]⟩ (by omega)⟩

/-- Counterexample for C4 as stated: a terminal run (unknown manager
action) produces a nonempty stream that contains no TEAM_EXECUTION_END
event. -/
theorem C4_counterexample :
    (TeamHandler.invoke ⟨"s", "o", "r", 1, []⟩
        ⟨fun _ => .ok ⟨.unknown "FOO"⟩, fun _ => 0, fun _ => 0,
         fun _ => .error "x"⟩).1 =
      [.event .MANAGER_RESPONSE (.managerResponse ⟨.unknown "FOO"⟩),
       .event .ERROR (.errorResponse ⟨"s", "o", "r", 400, "Unknown action: FOO"⟩)] ∧
    ((TeamHandler.invoke ⟨"s", "o", "r", 1, []⟩
        ⟨fun _ => .ok ⟨.unknown "FOO"⟩, fun _ => 0, fun _ => 0,
         fun _ => .error "x"⟩).1.countP
      (fun i => i.eventType? == some EventType.TEAM_EXECUTION_END)) = 0 := by
  constructor <;>
    simp [TeamHandler.invoke, TeamHandler.invokeLoop, keepaliveCount,
      StreamItem.eventType?]

/-- Each run performs at most `max(max_rounds - start, 1)` ASSIGN
rounds. -/
lemma invokeLoop_assignCount_le (env : TeamEnv) (b : RoundBehavior) :
    ∀ n r conv, env.max_rounds - r ≤ n →
      ((TeamHandler.invokeLoop env b r conv).1.countP
        (fun i => i.isAssignResponse)) ≤ max (env.max_rounds - r) 1 := by
  intro n
  induction n with
  | zero =>
    intro r conv hn
    rw [TeamHandler.invokeLoop]
    cases hm : b.manager r with
    | error e =>
      simp only [List.countP_append, List.countP_cons, List.countP_nil,
        List.countP_replicate, assignPred_keepalive, assignPred_event_error]
      norm_num
    | ok mo =>
      obtain ⟨a⟩ := mo
      cases a with
      | assignNewTask d =>
        have hcond : env.max_rounds ≤ r + 1 := by omega
        have hstep := (execute_task_countP_eq_zero env.agents d.task_id d.instructions
          d.agent_name conv env.session_id env.source env.request_id
          (b.taskDuration r) (b.taskOutcome r)).1
        simp only [dif_pos hcond, List.countP_append, List.countP_cons, List.countP_nil,
          List.countP_replicate, assignPred_keepalive, assignPred_event_assign,
          assignPred_event_error, hstep]
        norm_num
      | provideResult d =>
        rcases hc : conv.get_message_by_task_id d.result_task_id with _ | msg <;>
          simp only [hc, List.countP_append, List.countP_cons, List.countP_nil,
            List.countP_replicate, assignPred_keepalive, assignPred_event_mgr_provide,
            assignPred_event_final] <;>
          norm_num
      | abortAction d =>
        simp only [List.countP_append, List.countP_cons, List.countP_nil,
          List.countP_replicate, assignPred_keepalive, assignPred_event_mgr_abort,
          assignPred_event_error]
        norm_num
      | unknown t =>
        simp only [List.countP_append, List.countP_cons, List.countP_nil,
          List.countP_replicate, assignPred_keepalive, assignPred_event_mgr_unknown,
          assignPred_event_error]
        norm_num
  | succ n ih =>
    intro r conv hn
    rw [TeamHandler.invokeLoop]
    cases hm : b.manager r with
    | error e =>
      simp only [List.countP_append, List.countP_cons, List.countP_nil,
        List.countP_replicate, assignPred_keepalive, assignPred_event_error]
      norm_num
    | ok mo =>
      obtain ⟨a⟩ := mo
      cases a with
      | assignNewTask d =>
        have hstep := (execute_task_countP_eq_zero env.agents d.task_id d.instructions
          d.agent_name conv env.session_id env.source env.request_id
          (b.taskDuration r) (b.taskOutcome r)).1
        by_cases hcond : env.max_rounds ≤ r + 1
        · simp only [dif_pos hcond, List.countP_append, List.countP_cons,
            List.countP_nil, List.countP_replicate, assignPred_keepalive,
            assignPred_event_assign, assignPred_event_error, hstep]
          norm_num
        · have hrest := ih (r + 1)
            ((TeamHandler.execute_task env.agents d.task_id d.instructions
              d.agent_name conv env.session_id env.source env.request_id
              (b.taskDuration r) (b.taskOutcome r)).2) (by omega)
          simp only [dif_neg hcond, List.countP_append, List.countP_cons,
            List.countP_nil, List.countP_replicate, assignPred_keepalive,
            assignPred_event_assign, assignPred_event_error, hstep]
          norm_num
          omega
      | provideResult d =>
        rcases hc : conv.get_message_by_task_id d.result_task_id with _ | msg <;>
          simp only [hc, List.countP_append, List.countP_cons, List.countP_nil,
            List.countP_replicate, assignPred_keepalive, assignPred_event_mgr_provide,
            assignPred_event_final] <;>
          norm_num
      | abortAction d =>
        simp only [List.countP_append, List.countP_cons, List.countP_nil,
          List.countP_replicate, assignPred_keepalive, assignPred_event_mgr_abort,
          assignPred_event_error]
        norm_num
      | unknown t =>
        simp only [List.countP_append, List.countP_cons, List.countP_nil,
          List.countP_replicate, assignPred_keepalive, assignPred_event_mgr_unknown,
          assignPred_event_error]
        norm_num

/-- When the manager keeps assigning tasks, every run ends with the
max-rounds AbortResult event and raises nothing. -/
lemma invokeLoop_always_assign_ends_max_rounds (env : TeamEnv) (b : RoundBehavior)
    (hassign : ∀ r, ∃ d, b.manager r = .ok ⟨.assignNewTask d⟩) :
    ∀ n r conv, env.max_rounds - r ≤ n →
      (TeamHandler.invokeLoop env b r conv).1.getLast? =
        some (.event .ERROR (.abortResult
          ⟨env.session_id, env.source, env.request_id,
           "Max rounds surpassed: " ++ toString env.max_rounds⟩)) ∧
      (TeamHandler.invokeLoop env b r conv).2 = none := by
  intro n
  induction n with
  | zero =>
    intro r conv hn
    obtain ⟨d, hd⟩ := hassign r
    rw [TeamHandler.invokeLoop]
    have hcond : env.max_rounds ≤ r + 1 := by omega
    refine ⟨?_, by simp [hd, hcond]⟩
    simp only [hd, dif_pos hcond]
    rw [List.getLast?_append]
    rfl
  | succ n ih =>
    intro r conv hn
    obtain ⟨d, hd⟩ := hassign r
    rw [TeamHandler.invokeLoop]
    by_cases hcond : env.max_rounds ≤ r + 1
    · refine ⟨?_, by simp [hd, hcond]⟩
      simp only [hd, dif_pos hcond]
      rw [List.getLast?_append]
      rfl
    · have hrec := ih (r + 1)
        ((TeamHandler.execute_task env.agents d.task_id d.instructions
          d.agent_name conv env.session_id env.source env.request_id
          (b.taskDuration r) (b.taskOutcome r)).2) (by omega)
      refine ⟨?_, by simp [hd, hcond, hrec.2]⟩
      simp only [hd, dif_neg hcond]
      rw [List.getLast?_append, hrec.1]
      rfl

/-- **C3 (amended).** The round loop always terminates (it is a total
function of the request); a run performs at most `max(max_rounds, 1)`
ASSIGN_NEW_TASK rounds; and when the round count reaches `max_rounds`
after an ASSIGN round the final emitted event is an `EventType.ERROR`
event carrying an AbortResult with reason
`"Max rounds surpassed: {max_rounds}"` (not an ErrorResponse), after
which the stream terminates. -/
theorem C3_round_budget :
    (∀ env b, ((TeamHandler.invoke env b).1.countP
      (fun i => i.isAssignResponse)) ≤ max env.max_rounds 1) ∧
    (∀ env b, (∀ r, ∃ d, b.manager r = .ok ⟨.assignNewTask d⟩) →
      (TeamHandler.invoke env b).1.getLast? =
        some (.event .ERROR (.abortResult
          ⟨env.session_id, env.source, env.request_id,
           "Max rounds surpassed: " ++ toString env.max_rounds⟩)) ∧
      (TeamHandler.invoke env b).2 = none) := by
  constructor
  · intro env b
    have h := invokeLoop_assignCount_le env b env.max_rounds 0 ⟨[]⟩ (by omega)
    simpa [TeamHandler.invoke] using h
  · intro env b hassign
    have h := invokeLoop_always_assign_ends_max_rounds env b hassign
      env.max_rounds 0 ⟨[]⟩ (by omega)
    simpa [TeamHandler.invoke] using h

/-- Witness for C3 (amended): a manager that always assigns drives a
`max_rounds = 2` run into the max-rounds AbortResult terminal event. -/
theorem C3_round_budget_witness :
    (TeamHandler.invoke ⟨"s", "o", "r", 2, [("A:1", ⟨⟨"A", "1"⟩⟩)]⟩
        ⟨fun _ => .ok ⟨.assignNewTask ⟨"t", "do", "A:1"⟩⟩, fun _ => 0, fun _ => 0,
         fun _ => .ok ⟨"s2", "o2", "r2", ⟨1, 2, 3⟩, "res"⟩⟩).1.getLast? =
      some (.event .ERROR (.abortResult ⟨"s", "o", "r", "Max rounds surpassed: 2"⟩)) ∧
    (TeamHandler.invoke ⟨"s", "o", "r", 2, [("A:1", ⟨⟨"A", "1"⟩⟩)]⟩
        ⟨fun _ => .ok ⟨.assignNewTask ⟨"t", "do", "A:1"⟩⟩, fun _ => 0, fun _ => 0,
         fun _ => .ok ⟨"s2", "o2", "r2", ⟨1, 2, 3⟩, "res"⟩⟩).2 = none := by
  exact C3_round_budget.2 ⟨"s", "o", "r", 2, [("A:1", ⟨⟨"A", "1"⟩⟩)]⟩
    ⟨fun _ => .ok ⟨.assignNewTask ⟨"t", "do", "A:1"⟩⟩, fun _ => 0, fun _ => 0,
     fun _ => .ok ⟨"s2", "o2", "r2", ⟨1, 2, 3⟩, "res"⟩⟩
    (fun r => ⟨⟨"t", "do", "A:1"⟩, rfl⟩)

/-- Counterexample for C3 as stated: with `max_rounds = 0` the loop
still executes one full ASSIGN round (1 > max_rounds), and the terminal
event's payload is an AbortResult, not the ErrorResponse the claim
names. -/
theorem C3_counterexample :
    (TeamHandler.invoke ⟨"s", "o", "r", 0, [("A:1", ⟨⟨"A", "1"⟩⟩)]⟩
        ⟨fun _ => .ok ⟨.assignNewTask ⟨"t", "do", "A:1"⟩⟩, fun _ => 0, fun _ => 0,
         fun _ => .ok ⟨"s2", "o2", "r2", ⟨1, 2, 3⟩, "res"⟩⟩).1.countP
      (fun i => i.isAssignResponse) = 1 ∧
    ((TeamHandler.invoke ⟨"s", "o", "r", 0, [("A:1", ⟨⟨"A", "1"⟩⟩)]⟩
        ⟨fun _ => .ok ⟨.assignNewTask ⟨"t", "do", "A:1"⟩⟩, fun _ => 0, fun _ => 0,
         fun _ => .ok ⟨"s2", "o2", "r2", ⟨1, 2, 3⟩, "res"⟩⟩).1.getLast?.map
      (fun i => i.isErrorResponse)) = some false ∧
    ((TeamHandler.invoke ⟨"s", "o", "r", 0, [("A:1", ⟨⟨"A", "1"⟩⟩)]⟩
        ⟨fun _ => .ok ⟨.assignNewTask ⟨"t", "do", "A:1"⟩⟩, fun _ => 0, fun _ => 0,
         fun _ => .ok ⟨"s2", "o2", "r2", ⟨1, 2, 3⟩, "res"⟩⟩).1.getLast?.map
      (fun i => i.isAbortResult)) = some true := by
  refine ⟨?_, ?_, ?_⟩ <;>
    simp [TeamHandler.invoke, TeamHandler.invokeLoop, TeamHandler.execute_task,
      TaskExecutor.execute_task_sse, dictGet?, TaskAgent.isTruthy, keepaliveCount,
      Conversation.add_item, StreamItem.isAssignResponse, StreamItem.isErrorResponse,
      StreamItem.isAbortResult]

end CollabOrchestrator
